import Mathlib

/-!
Verification of the balance-sheet analyzer core: the `BalanceSheet` value
object (`balance_sheet.py`), the `FinancialAnalyzer` ratio engine
(`analyzer.py`) and the insight layer of `report_generator.py`.

Python floats are modelled as exact rationals extended with a positive
infinity sentinel (`Val`); dynamically-typed field values (for the
construction-time typing claims) are modelled by `PyVal`, and fallible
Python arithmetic by `Except`.
-/

namespace BSA

/-- A Python float value as produced by the ratio engine: either a finite
number (modelled exactly as a rational) or `float('inf')`. -/
inductive Val where
  | num (q : ℚ)
  | inf
deriving DecidableEq, Repr

/-- Python `<` on such values: `inf < x` is `False`, `x < inf` is `True`
for finite `x`. -/
def Val.ltb : Val → Val → Bool
  | .num a, .num b => decide (a < b)
  | .num _, .inf => true
  | .inf, _ => false

/-- Python `<=` on such values. -/
def Val.leb : Val → Val → Bool
  | .num a, .num b => decide (a ≤ b)
  | .inf, .num _ => false
  | _, .inf => true

/-- `balance_sheet.py`, `BalanceSheet` dataclass: 15 numeric line items
plus two metadata strings. -/
structure BalanceSheet where
  cash : ℚ
  accounts_receivable : ℚ
  inventory : ℚ
  other_current_assets : ℚ
  property_plant_equipment : ℚ
  intangible_assets : ℚ
  other_long_term_assets : ℚ
  accounts_payable : ℚ
  short_term_debt : ℚ
  other_current_liabilities : ℚ
  long_term_debt : ℚ
  other_long_term_liabilities : ℚ
  common_stock : ℚ
  retained_earnings : ℚ
  other_equity : ℚ
  company_name : String
  date : String
deriving Repr

/-- `BalanceSheet.total_current_assets`. -/
def BalanceSheet.total_current_assets (bs : BalanceSheet) : ℚ :=
  bs.cash + bs.accounts_receivable + bs.inventory + bs.other_current_assets

/-- `BalanceSheet.total_long_term_assets`. -/
def BalanceSheet.total_long_term_assets (bs : BalanceSheet) : ℚ :=
  bs.property_plant_equipment + bs.intangible_assets + bs.other_long_term_assets

/-- `BalanceSheet.total_assets`. -/
def BalanceSheet.total_assets (bs : BalanceSheet) : ℚ :=
  bs.total_current_assets + bs.total_long_term_assets

/-- `BalanceSheet.total_current_liabilities`. -/
def BalanceSheet.total_current_liabilities (bs : BalanceSheet) : ℚ :=
  bs.accounts_payable + bs.short_term_debt + bs.other_current_liabilities

/-- `BalanceSheet.total_long_term_liabilities`. -/
def BalanceSheet.total_long_term_liabilities (bs : BalanceSheet) : ℚ :=
  bs.long_term_debt + bs.other_long_term_liabilities

/-- `BalanceSheet.total_liabilities`. -/
def BalanceSheet.total_liabilities (bs : BalanceSheet) : ℚ :=
  bs.total_current_liabilities + bs.total_long_term_liabilities

/-- `BalanceSheet.total_equity`. -/
def BalanceSheet.total_equity (bs : BalanceSheet) : ℚ :=
  bs.common_stock + bs.retained_earnings + bs.other_equity

/-- `BalanceSheet.verify_balance`: `abs(total_assets - (total_liabilities
+ total_equity)) < 0.01`. -/
def BalanceSheet.verify_balance (bs : BalanceSheet) : Bool :=
  decide (|bs.total_assets - (bs.total_liabilities + bs.total_equity)| < 1/100)

/-- `FinancialAnalyzer.current_ratio`. -/
def current_ratio (bs : BalanceSheet) : Val :=
  if bs.total_current_liabilities = 0 then .inf
  else .num (bs.total_current_assets / bs.total_current_liabilities)

/-- `FinancialAnalyzer.quick_ratio`. -/
def quick_ratio (bs : BalanceSheet) : Val :=
  if bs.total_current_liabilities = 0 then .inf
  else .num ((bs.total_current_assets - bs.inventory) / bs.total_current_liabilities)

/-- `FinancialAnalyzer.cash_ratio`. -/
def cash_ratio (bs : BalanceSheet) : Val :=
  if bs.total_current_liabilities = 0 then .inf
  else .num (bs.cash / bs.total_current_liabilities)

/-- `FinancialAnalyzer.debt_to_equity_ratio`. -/
def debt_to_equity_ratio (bs : BalanceSheet) : Val :=
  if bs.total_equity = 0 then .inf
  else .num (bs.total_liabilities / bs.total_equity)

/-- `FinancialAnalyzer.debt_to_assets_ratio`. -/
def debt_to_assets_ratio (bs : BalanceSheet) : Val :=
  if bs.total_assets = 0 then .num 0
  else .num (bs.total_liabilities / bs.total_assets)

/-- `FinancialAnalyzer.equity_ratio`. -/
def equity_ratio (bs : BalanceSheet) : Val :=
  if bs.total_assets = 0 then .num 0
  else .num (bs.total_equity / bs.total_assets)

/-- `FinancialAnalyzer.working_capital`. -/
def working_capital (bs : BalanceSheet) : Val :=
  .num (bs.total_current_assets - bs.total_current_liabilities)

/-- `FinancialAnalyzer.long_term_debt_ratio`. -/
def long_term_debt_ratio (bs : BalanceSheet) : Val :=
  if bs.total_assets = 0 then .num 0
  else .num (bs.total_long_term_liabilities / bs.total_assets)

/-- `FinancialAnalyzer.get_all_ratios`: the insertion-ordered dict, as an
association list with the code's key literals in the code's order. -/
def get_all_ratios (bs : BalanceSheet) : List (String × Val) :=
  [("Current Ratio", current_ratio bs),
   ("Quick Ratio", quick_ratio bs),
   ("Cash Ratio", cash_ratio bs),
   ("Debt to Equity Ratio", debt_to_equity_ratio bs),
   ("Debt to Assets Ratio", debt_to_assets_ratio bs),
   ("Equity Ratio", equity_ratio bs),
   ("Working Capital", working_capital bs),
   ("Long-term Debt Ratio", long_term_debt_ratio bs)]

/-- `FinancialAnalyzer._interpret_current_ratio`. -/
def interpret_current_ratio (value : Val) : String :=
  if value.ltb (.num 1) then "Poor - May struggle to meet short-term obligations"
  else if value.ltb (.num (3/2)) then "Below Average - Limited liquidity cushion"
  else if value.ltb (.num 2) then "Good - Adequate liquidity"
  else if value.ltb (.num 3) then "Excellent - Strong liquidity position"
  else "Very High - May indicate inefficient use of assets"

/-- `FinancialAnalyzer._interpret_quick_ratio`. -/
def interpret_quick_ratio (value : Val) : String :=
  if value.ltb (.num (1/2)) then "Poor - Liquidity concerns without inventory"
  else if value.ltb (.num 1) then "Below Average - Some liquidity risk"
  else if value.ltb (.num (3/2)) then "Good - Solid liquidity"
  else "Excellent - Very strong liquidity"

/-- `FinancialAnalyzer._interpret_cash_ratio`. -/
def interpret_cash_ratio (value : Val) : String :=
  if value.ltb (.num (1/5)) then "Low - Limited immediate cash availability"
  else if value.ltb (.num (1/2)) then "Moderate - Reasonable cash position"
  else "High - Strong cash reserves"

/-- `FinancialAnalyzer._interpret_debt_to_equity`. -/
def interpret_debt_to_equity (value : Val) : String :=
  if value.ltb (.num (1/2)) then "Conservative - Low leverage, equity-financed"
  else if value.ltb (.num 1) then "Moderate - Balanced leverage"
  else if value.ltb (.num 2) then "High - Significant debt leverage"
  else "Very High - Heavy reliance on debt financing"

/-- `FinancialAnalyzer._interpret_debt_to_assets`. -/
def interpret_debt_to_assets (value : Val) : String :=
  if value.ltb (.num (3/10)) then "Low - Conservative debt levels"
  else if value.ltb (.num (1/2)) then "Moderate - Balanced capital structure"
  else if value.ltb (.num (7/10)) then "High - Significant debt burden"
  else "Very High - Heavy debt load"

/-- `FinancialAnalyzer._interpret_equity_ratio`. -/
def interpret_equity_ratio (value : Val) : String :=
  if value.ltb (.num (3/10)) then "Low - Heavy reliance on debt"
  else if value.ltb (.num (1/2)) then "Moderate - Balanced financing"
  else if value.ltb (.num (7/10)) then "Good - Strong equity base"
  else "Excellent - Conservative financing"

/-- `FinancialAnalyzer._interpret_working_capital`. -/
def interpret_working_capital (value : Val) : String :=
  if value.ltb (.num 0) then "Negative - Short-term financial stress"
  else if value.ltb (.num 100000) then "Low - Limited working capital buffer"
  else if value.ltb (.num 1000000) then "Moderate - Adequate working capital"
  else "Strong - Healthy working capital position"

/-- `FinancialAnalyzer._interpret_long_term_debt`. -/
def interpret_long_term_debt (value : Val) : String :=
  if value.ltb (.num (1/5)) then "Low - Minimal long-term debt"
  else if value.ltb (.num (2/5)) then "Moderate - Reasonable long-term debt"
  else "High - Significant long-term obligations"

/-- `FinancialAnalyzer.interpret_ratio`: the dict of interpretations with
a `.get` default for unknown names. -/
def interpret_ratio (ratio_name : String) (value : Val) : String :=
  (([("Current Ratio", interpret_current_ratio value),
     ("Quick Ratio", interpret_quick_ratio value),
     ("Cash Ratio", interpret_cash_ratio value),
     ("Debt to Equity Ratio", interpret_debt_to_equity value),
     ("Debt to Assets Ratio", interpret_debt_to_assets value),
     ("Equity Ratio", interpret_equity_ratio value),
     ("Working Capital", interpret_working_capital value),
     ("Long-term Debt Ratio", interpret_long_term_debt value)]
   : List (String × String)).lookup ratio_name).getD "No interpretation available"

/-- The eight ratio-name key literals of `analyzer.py`, in dict insertion
order. -/
def ratio_names : List String :=
  ["Current Ratio", "Quick Ratio", "Cash Ratio", "Debt to Equity Ratio",
   "Debt to Assets Ratio", "Equity Ratio", "Working Capital", "Long-term Debt Ratio"]

/-- Modelled from the spec (§4.2): a threshold ladder of left-closed
bands, evaluated in ascending order — each band is taken when the value
is strictly below its threshold (upper bound exclusive), and the final
band covers every value at or above the last threshold. -/
def bandLadder (bands : List (ℚ × String)) (finalBand : String) (value : Val) : String :=
  match bands with
  | [] => finalBand
  | (t, b) :: rest => if value.ltb (.num t) then b else bandLadder rest finalBand value

/-- Abstraction of Python's currency formatting `f"{x:,.2f}"` used inside
one insight string; the exact rendering is incidental to the insight
rules, only that the string depends on the working-capital value. -/
def formatCurrency (v : Val) : String :=
  match v with
  | .num q => toString q
  | .inf => "inf"

/-- `report_generator.py` liquidity insight rule: current ratio `< 1` /
`> 3`. -/
def insight_current (cr : Val) : List String :=
  if cr.ltb (.num 1) then
    ["WARNING: Current ratio below 1 indicates potential liquidity issues"]
  else if (Val.num 3).ltb cr then
    ["High current ratio may indicate underutilized assets"]
  else []

/-- `report_generator.py` leverage insight rule: debt-to-equity `> 2` /
`< 0.5`. -/
def insight_leverage (de : Val) : List String :=
  if (Val.num 2).ltb de then
    ["High debt-to-equity ratio suggests significant financial leverage and risk"]
  else if de.ltb (.num (1/2)) then
    ["Conservative capital structure with low debt levels"]
  else []

/-- `report_generator.py` working-capital insight rule: `< 0` / `> 0`. -/
def insight_working_capital (wc : Val) : List String :=
  if wc.ltb (.num 0) then
    ["CRITICAL: Negative working capital - immediate attention needed"]
  else if (Val.num 0).ltb wc then
    ["Positive working capital of $" ++ formatCurrency wc ++ " provides financial cushion"]
  else []

/-- `report_generator.py` quick-ratio insight rule: `< 1`. -/
def insight_quick (qr : Val) : List String :=
  if qr.ltb (.num 1) then
    ["Quick ratio below 1 indicates potential challenges meeting short-term obligations"]
  else []

/-- `report_generator.py` equity-ratio insight rule: `> 0.7` / `< 0.3`. -/
def insight_equity (er : Val) : List String :=
  if (Val.num (7/10)).ltb er then
    ["Strong equity position provides financial stability"]
  else if er.ltb (.num (3/10)) then
    ["Heavy reliance on debt financing increases financial risk"]
  else []

/-- `ReportGenerator._generate_insights`: reads five ratios out of the
ratio dict (a missing key would be a Python `KeyError`, modelled by
`Option`) and appends the conditional insight of each rule in the source
order. -/
def generate_insights (ratios : List (String × Val)) : Option (List String) := do
  let cr ← ratios.lookup "Current Ratio"
  let de ← ratios.lookup "Debt to Equity Ratio"
  let wc ← ratios.lookup "Working Capital"
  let qr ← ratios.lookup "Quick Ratio"
  let er ← ratios.lookup "Equity Ratio"
  return insight_current cr ++ insight_leverage de ++ insight_working_capital wc ++
    insight_quick qr ++ insight_equity er

/-- A dynamically-typed Python value passed to the dataclass constructor:
a number or a non-numeric (string) value. -/
inductive PyVal where
  | num (q : ℚ)
  | str (s : String)
deriving DecidableEq, Repr

/-- Python `+` on dynamic values: number plus number adds, string plus
string concatenates, any mix raises `TypeError`. -/
def pyAdd : PyVal → PyVal → Except String PyVal
  | .num a, .num b => .ok (.num (a + b))
  | .str a, .str b => .ok (.str (a ++ b))
  | _, _ => .error "TypeError: unsupported operand type(s) for +"

/-- The `BalanceSheet` dataclass with its fields as they are stored by the
generated constructor: whatever dynamic values the caller passed. -/
structure BalanceSheetPy where
  cash : PyVal
  accounts_receivable : PyVal
  inventory : PyVal
  other_current_assets : PyVal
  property_plant_equipment : PyVal
  intangible_assets : PyVal
  other_long_term_assets : PyVal
  accounts_payable : PyVal
  short_term_debt : PyVal
  other_current_liabilities : PyVal
  long_term_debt : PyVal
  other_long_term_liabilities : PyVal
  common_stock : PyVal
  retained_earnings : PyVal
  other_equity : PyVal
  company_name : String
  date : String
deriving Repr

/-- The `@dataclass`-generated `__init__`: it assigns the 15 field values
unchecked — no type validation is generated from the annotations, so
construction never fails on a wrongly-typed value. -/
def BalanceSheetPy.construct
    (cash accounts_receivable inventory other_current_assets
     property_plant_equipment intangible_assets other_long_term_assets
     accounts_payable short_term_debt other_current_liabilities
     long_term_debt other_long_term_liabilities
     common_stock retained_earnings other_equity : PyVal)
    (company_name date : String) : Except String BalanceSheetPy :=
  .ok ⟨cash, accounts_receivable, inventory, other_current_assets,
       property_plant_equipment, intangible_assets, other_long_term_assets,
       accounts_payable, short_term_debt, other_current_liabilities,
       long_term_debt, other_long_term_liabilities,
       common_stock, retained_earnings, other_equity, company_name, date⟩

/-- `BalanceSheet.total_current_assets` on the dynamic model: the chained
`+` of `balance_sheet.py`, raising `TypeError` on a non-numeric field. -/
def BalanceSheetPy.total_current_assets (bs : BalanceSheetPy) : Except String PyVal := do
  let a ← pyAdd bs.cash bs.accounts_receivable
  let b ← pyAdd a bs.inventory
  pyAdd b bs.other_current_assets

/-- The end-to-end example sheet of spec §8. -/
def exampleSheet : BalanceSheet :=
  { cash := 500000
    accounts_receivable := 300000
    inventory := 400000
    other_current_assets := 100000
    property_plant_equipment := 2000000
    intangible_assets := 500000
    other_long_term_assets := 200000
    accounts_payable := 250000
    short_term_debt := 200000
    other_current_liabilities := 150000
    long_term_debt := 1500000
    other_long_term_liabilities := 300000
    common_stock := 1000000
    retained_earnings := 500000
    other_equity := 100000
    company_name := "TestCo"
    date := "2025-01-01" }

/-- A sheet with a deliberate imbalance of exactly 1.0: assets 101,
liabilities plus equity 100. -/
def imbalancedSheet : BalanceSheet :=
  { cash := 101
    accounts_receivable := 0
    inventory := 0
    other_current_assets := 0
    property_plant_equipment := 0
    intangible_assets := 0
    other_long_term_assets := 0
    accounts_payable := 0
    short_term_debt := 0
    other_current_liabilities := 0
    long_term_debt := 0
    other_long_term_liabilities := 0
    common_stock := 50
    retained_earnings := 50
    other_equity := 0
    company_name := "TestCo"
    date := "2025-01-01" }

/-- An all-zero sheet: zero current liabilities, zero equity, zero
assets. -/
def zeroSheet : BalanceSheet :=
  { cash := 0
    accounts_receivable := 0
    inventory := 0
    other_current_assets := 0
    property_plant_equipment := 0
    intangible_assets := 0
    other_long_term_assets := 0
    accounts_payable := 0
    short_term_debt := 0
    other_current_liabilities := 0
    long_term_debt := 0
    other_long_term_liabilities := 0
    common_stock := 0
    retained_earnings := 0
    other_equity := 0
    company_name := "ZeroCo"
    date := "2025-01-01" }

/-- All 15 numeric fields of a sheet are non-negative. -/
def BalanceSheet.Nonneg (bs : BalanceSheet) : Prop :=
  0 ≤ bs.cash ∧ 0 ≤ bs.accounts_receivable ∧ 0 ≤ bs.inventory ∧
  0 ≤ bs.other_current_assets ∧ 0 ≤ bs.property_plant_equipment ∧
  0 ≤ bs.intangible_assets ∧ 0 ≤ bs.other_long_term_assets ∧
  0 ≤ bs.accounts_payable ∧ 0 ≤ bs.short_term_debt ∧
  0 ≤ bs.other_current_liabilities ∧ 0 ≤ bs.long_term_debt ∧
  0 ≤ bs.other_long_term_liabilities ∧ 0 ≤ bs.common_stock ∧
  0 ≤ bs.retained_earnings ∧ 0 ≤ bs.other_equity

instance (bs : BalanceSheet) : Decidable bs.Nonneg := by
  unfold BalanceSheet.Nonneg; infer_instance

/-- C1: with total current liabilities equal to 0, `current_ratio`,
`quick_ratio` and `cash_ratio` all return `+inf`, and with total equity
equal to 0, `debt_to_equity_ratio` returns `+inf`; each method is a total
function of the sheet, so no zero-denominator case raises. -/
theorem c1_zero_denominators_give_infinity (bs : BalanceSheet) :
    (bs.total_current_liabilities = 0 →
      current_ratio bs = .inf ∧ quick_ratio bs = .inf ∧ cash_ratio bs = .inf) ∧
    (bs.total_equity = 0 → debt_to_equity_ratio bs = .inf) := by
  constructor
  · intro h
    refine ⟨?_, ?_, ?_⟩ <;> simp [current_ratio, quick_ratio, cash_ratio, h]
  · intro h
    simp [debt_to_equity_ratio, h]

/-- Witness for C1 at the all-zero sheet. -/
theorem c1_witness :
    current_ratio zeroSheet = .inf ∧ quick_ratio zeroSheet = .inf ∧
    cash_ratio zeroSheet = .inf ∧ debt_to_equity_ratio zeroSheet = .inf := by
  have h := c1_zero_denominators_give_infinity zeroSheet
  have hcl : zeroSheet.total_current_liabilities = 0 := by
    norm_num [zeroSheet, BalanceSheet.total_current_liabilities]
  have heq : zeroSheet.total_equity = 0 := by
    norm_num [zeroSheet, BalanceSheet.total_equity]
  exact ⟨(h.1 hcl).1, (h.1 hcl).2.1, (h.1 hcl).2.2, h.2 heq⟩

/-- C2: with total assets equal to 0, `debt_to_assets_ratio`,
`equity_ratio` and `long_term_debt_ratio` all return 0 (a finite value,
not infinity); every ratio method is a total Lean function returning a
`Val`, so no input makes any of them fail. -/
theorem c2_zero_assets_give_zero (bs : BalanceSheet) (h : bs.total_assets = 0) :
    debt_to_assets_ratio bs = .num 0 ∧ equity_ratio bs = .num 0 ∧
    long_term_debt_ratio bs = .num 0 := by
  refine ⟨?_, ?_, ?_⟩ <;>
    simp [debt_to_assets_ratio, equity_ratio, long_term_debt_ratio, h]

/-- Witness for C2 at the all-zero sheet. -/
theorem c2_witness :
    debt_to_assets_ratio zeroSheet = .num 0 ∧ equity_ratio zeroSheet = .num 0 ∧
    long_term_debt_ratio zeroSheet = .num 0 :=
  c2_zero_assets_give_zero zeroSheet (by
    norm_num [zeroSheet, BalanceSheet.total_assets,
      BalanceSheet.total_current_assets, BalanceSheet.total_long_term_assets])

/-- C3: `verify_balance` returns true iff the absolute difference between
total assets and liabilities-plus-equity is below 0.01; it is a pure
Boolean function, and a sheet with a deliberate imbalance of 1.0 yields
false. -/
theorem c3_verify_balance_iff (bs : BalanceSheet) :
    (bs.verify_balance = true ↔
      |bs.total_assets - (bs.total_liabilities + bs.total_equity)| < 1/100) ∧
    imbalancedSheet.total_assets -
      (imbalancedSheet.total_liabilities + imbalancedSheet.total_equity) = 1 ∧
    imbalancedSheet.verify_balance = false := by
  have h1 : imbalancedSheet.total_assets -
      (imbalancedSheet.total_liabilities + imbalancedSheet.total_equity) = 1 := by
    norm_num [imbalancedSheet, BalanceSheet.total_assets,
      BalanceSheet.total_current_assets, BalanceSheet.total_long_term_assets,
      BalanceSheet.total_liabilities, BalanceSheet.total_current_liabilities,
      BalanceSheet.total_long_term_liabilities, BalanceSheet.total_equity]
  refine ⟨?_, h1, ?_⟩
  · simp [BalanceSheet.verify_balance]
  · unfold BalanceSheet.verify_balance
    rw [decide_eq_false_iff_not, h1]
    norm_num

/-- C5 counterexample: the keys of `get_all_ratios` are not the spec
§4.2 table names — the fourth and fifth code literals are
"Debt to Equity Ratio" and "Debt to Assets Ratio", not "Debt-to-Equity"
and "Debt-to-Assets". -/
theorem c5_counterexample :
    (get_all_ratios exampleSheet).map Prod.fst ≠
      ["Current Ratio", "Quick Ratio", "Cash Ratio", "Debt-to-Equity",
       "Debt-to-Assets", "Equity Ratio", "Working Capital",
       "Long-term Debt Ratio"] := by
  decide

/-- C5 (amended): `get_all_ratios` returns exactly 8 entries, keyed by
the code's 8 fixed name literals in the code's fixed insertion order,
with no ratio omitted, regardless of input values. -/
theorem c5_eight_entries_fixed_order (bs : BalanceSheet) :
    (get_all_ratios bs).map Prod.fst = ratio_names ∧
    (get_all_ratios bs).length = 8 :=
  ⟨rfl, rfl⟩

/-- C6: for every name not among the 8 known ratio names,
`interpret_ratio` returns the literal "No interpretation available" — a
normal return value, not a failure. -/
theorem c6_unknown_name_sentinel (ratio_name : String) (value : Val)
    (h : ratio_name ∉ ratio_names) :
    interpret_ratio ratio_name value = "No interpretation available" := by
  simp only [ratio_names, List.mem_cons, List.not_mem_nil, or_false, not_or] at h
  obtain ⟨h1, h2, h3, h4, h5, h6, h7, h8⟩ := h
  have e1 : (ratio_name == "Current Ratio") = false := beq_eq_false_iff_ne.mpr h1
  have e2 : (ratio_name == "Quick Ratio") = false := beq_eq_false_iff_ne.mpr h2
  have e3 : (ratio_name == "Cash Ratio") = false := beq_eq_false_iff_ne.mpr h3
  have e4 : (ratio_name == "Debt to Equity Ratio") = false := beq_eq_false_iff_ne.mpr h4
  have e5 : (ratio_name == "Debt to Assets Ratio") = false := beq_eq_false_iff_ne.mpr h5
  have e6 : (ratio_name == "Equity Ratio") = false := beq_eq_false_iff_ne.mpr h6
  have e7 : (ratio_name == "Working Capital") = false := beq_eq_false_iff_ne.mpr h7
  have e8 : (ratio_name == "Long-term Debt Ratio") = false := beq_eq_false_iff_ne.mpr h8
  simp [interpret_ratio, List.lookup, e1, e2, e3, e4, e5, e6, e7, e8]

/-- Witness for C6 at a concrete unknown name. -/
theorem c6_witness :
    interpret_ratio "Altman Z-Score" (.num 1) = "No interpretation available" :=
  c6_unknown_name_sentinel "Altman Z-Score" (.num 1) (by decide)

/-- C7: the spec §8 end-to-end example: totals 4,000,000 / 2,400,000 /
1,600,000, the sheet balances, the current ratio is 1300000/600000 and
its interpretation is the "Excellent" band. -/
theorem c7_end_to_end :
    exampleSheet.total_assets = 4000000 ∧
    exampleSheet.total_liabilities = 2400000 ∧
    exampleSheet.total_equity = 1600000 ∧
    exampleSheet.verify_balance = true ∧
    current_ratio exampleSheet = .num (1300000 / 600000) ∧
    interpret_ratio "Current Ratio" (current_ratio exampleSheet) =
      "Excellent - Strong liquidity position" := by
  have hta : exampleSheet.total_assets = 4000000 := by
    norm_num [exampleSheet, BalanceSheet.total_assets,
      BalanceSheet.total_current_assets, BalanceSheet.total_long_term_assets]
  have htl : exampleSheet.total_liabilities = 2400000 := by
    norm_num [exampleSheet, BalanceSheet.total_liabilities,
      BalanceSheet.total_current_liabilities, BalanceSheet.total_long_term_liabilities]
  have hte : exampleSheet.total_equity = 1600000 := by
    norm_num [exampleSheet, BalanceSheet.total_equity]
  have htca : exampleSheet.total_current_assets = 1300000 := by
    norm_num [exampleSheet, BalanceSheet.total_current_assets]
  have htcl : exampleSheet.total_current_liabilities = 600000 := by
    norm_num [exampleSheet, BalanceSheet.total_current_liabilities]
  have hcr : current_ratio exampleSheet = .num (1300000 / 600000) := by
    unfold current_ratio
    rw [htca, htcl]
    norm_num
  refine ⟨hta, htl, hte, ?_, hcr, ?_⟩
  · unfold BalanceSheet.verify_balance
    rw [decide_eq_true_eq, hta, htl, hte]
    norm_num
  · rw [hcr]
    norm_num [interpret_ratio, List.lookup, interpret_current_ratio, Val.ltb]

/-- C4: every interpreter is exactly a left-closed band ladder — bands
evaluated in ascending threshold order, each upper bound exclusive, final
band at or above the last threshold — with strictly ascending thresholds;
in particular a Current Ratio of exactly 1.0 lands in the
"Below Average" band, not "Poor". -/
theorem c4_band_ladders :
    (∀ v, interpret_current_ratio v =
      bandLadder [(1, "Poor - May struggle to meet short-term obligations"),
        (3/2, "Below Average - Limited liquidity cushion"),
        (2, "Good - Adequate liquidity"),
        (3, "Excellent - Strong liquidity position")]
        "Very High - May indicate inefficient use of assets" v) ∧
    ((1:ℚ) < 3/2 ∧ (3/2:ℚ) < 2 ∧ (2:ℚ) < 3) ∧
    (∀ v, interpret_quick_ratio v =
      bandLadder [(1/2, "Poor - Liquidity concerns without inventory"),
        (1, "Below Average - Some liquidity risk"),
        (3/2, "Good - Solid liquidity")]
        "Excellent - Very strong liquidity" v) ∧
    ((1:ℚ)/2 < 1 ∧ (1:ℚ) < 3/2) ∧
    (∀ v, interpret_cash_ratio v =
      bandLadder [(1/5, "Low - Limited immediate cash availability"),
        (1/2, "Moderate - Reasonable cash position")]
        "High - Strong cash reserves" v) ∧
    ((1:ℚ)/5 < 1/2) ∧
    (∀ v, interpret_debt_to_equity v =
      bandLadder [(1/2, "Conservative - Low leverage, equity-financed"),
        (1, "Moderate - Balanced leverage"),
        (2, "High - Significant debt leverage")]
        "Very High - Heavy reliance on debt financing" v) ∧
    ((1:ℚ)/2 < 1 ∧ (1:ℚ) < 2) ∧
    (∀ v, interpret_debt_to_assets v =
      bandLadder [(3/10, "Low - Conservative debt levels"),
        (1/2, "Moderate - Balanced capital structure"),
        (7/10, "High - Significant debt burden")]
        "Very High - Heavy debt load" v) ∧
    ((3:ℚ)/10 < 1/2 ∧ (1:ℚ)/2 < 7/10) ∧
    (∀ v, interpret_equity_ratio v =
      bandLadder [(3/10, "Low - Heavy reliance on debt"),
        (1/2, "Moderate - Balanced financing"),
        (7/10, "Good - Strong equity base")]
        "Excellent - Conservative financing" v) ∧
    ((3:ℚ)/10 < 1/2 ∧ (1:ℚ)/2 < 7/10) ∧
    (∀ v, interpret_working_capital v =
      bandLadder [(0, "Negative - Short-term financial stress"),
        (100000, "Low - Limited working capital buffer"),
        (1000000, "Moderate - Adequate working capital")]
        "Strong - Healthy working capital position" v) ∧
    ((0:ℚ) < 100000 ∧ (100000:ℚ) < 1000000) ∧
    (∀ v, interpret_long_term_debt v =
      bandLadder [(1/5, "Low - Minimal long-term debt"),
        (2/5, "Moderate - Reasonable long-term debt")]
        "High - Significant long-term obligations" v) ∧
    ((1:ℚ)/5 < 2/5) ∧
    interpret_ratio "Current Ratio" (.num 1) =
      "Below Average - Limited liquidity cushion" := by
  refine ⟨fun v => rfl, by norm_num, fun v => rfl, by norm_num, fun v => rfl,
    by norm_num, fun v => rfl, by norm_num, fun v => rfl, by norm_num,
    fun v => rfl, by norm_num, fun v => rfl, by norm_num, fun v => rfl,
    by norm_num, ?_⟩
  norm_num [interpret_ratio, List.lookup, interpret_current_ratio, Val.ltb]

/-- Length bound for the current-ratio insight rule. -/
theorem insight_current_len (v : Val) : (insight_current v).length ≤ 1 := by
  unfold insight_current
  split
  · simp
  split <;> simp

/-- Length bound for the leverage insight rule. -/
theorem insight_leverage_len (v : Val) : (insight_leverage v).length ≤ 1 := by
  unfold insight_leverage
  split
  · simp
  split <;> simp

/-- Length bound for the working-capital insight rule. -/
theorem insight_working_capital_len (v : Val) :
    (insight_working_capital v).length ≤ 1 := by
  unfold insight_working_capital
  split
  · simp
  split <;> simp

/-- Length bound for the quick-ratio insight rule. -/
theorem insight_quick_len (v : Val) : (insight_quick v).length ≤ 1 := by
  unfold insight_quick
  split <;> simp

/-- Length bound for the equity-ratio insight rule. -/
theorem insight_equity_len (v : Val) : (insight_equity v).length ≤ 1 := by
  unfold insight_equity
  split
  · simp
  split <;> simp

/-- C8: on the engine's ratio mapping the insight function is total (the
`KeyError` case cannot occur), returns the five rule outcomes appended in
the fixed source order, each rule contributes at most one string, and the
whole list has at most 6 entries. -/
theorem c8_insights_pure_ordered (bs : BalanceSheet) :
    generate_insights (get_all_ratios bs) =
      some (insight_current (current_ratio bs) ++
        insight_leverage (debt_to_equity_ratio bs) ++
        insight_working_capital (working_capital bs) ++
        insight_quick (quick_ratio bs) ++
        insight_equity (equity_ratio bs)) ∧
    (∀ v, (insight_current v).length ≤ 1 ∧ (insight_leverage v).length ≤ 1 ∧
      (insight_working_capital v).length ≤ 1 ∧ (insight_quick v).length ≤ 1 ∧
      (insight_equity v).length ≤ 1) ∧
    (∃ l, generate_insights (get_all_ratios bs) = some l ∧ l.length ≤ 6) := by
  refine ⟨rfl, fun v => ⟨insight_current_len v, insight_leverage_len v,
    insight_working_capital_len v, insight_quick_len v, insight_equity_len v⟩,
    ⟨_, rfl, ?_⟩⟩
  have h1 := insight_current_len (current_ratio bs)
  have h2 := insight_leverage_len (debt_to_equity_ratio bs)
  have h3 := insight_working_capital_len (working_capital bs)
  have h4 := insight_quick_len (quick_ratio bs)
  have h5 := insight_equity_len (equity_ratio bs)
  simp only [generate_insights, get_all_ratios, List.lookup, List.length_append]
  simp only [List.length_append] at *
  omega

/-- A construction call passing a non-numeric value for the numeric
`cash` field. -/
def badSheetPy : BalanceSheetPy :=
  ⟨.str "N/A", .num 0, .num 0, .num 0, .num 0, .num 0, .num 0, .num 0,
   .num 0, .num 0, .num 0, .num 0, .num 0, .num 0, .num 0,
   "BadCo", "2025-01-01"⟩

/-- C9 counterexample: constructing a `BalanceSheet` with a non-numeric
`cash` value succeeds — the dataclass-generated constructor performs no
type validation, so the construction attempt does not fail. -/
theorem c9_counterexample :
    (BalanceSheetPy.construct (.str "N/A") (.num 0) (.num 0) (.num 0)
      (.num 0) (.num 0) (.num 0) (.num 0) (.num 0) (.num 0) (.num 0)
      (.num 0) (.num 0) (.num 0) (.num 0) "BadCo" "2025-01-01").isOk = true :=
  rfl

/-- C9 (amended): construction never fails, whatever the field values —
the dataclass constructor stores them unchecked — and the type error for
a non-numeric field surfaces only later, when a derived total is read
(here `total_current_assets` on the bad sheet raises `TypeError`). -/
theorem c9_construction_unchecked_error_deferred
    (cash ar inv oca ppe ia olta ap std ocl ltd oltl stock earnings oe : PyVal)
    (n d : String) :
    (BalanceSheetPy.construct cash ar inv oca ppe ia olta ap std ocl ltd
      oltl stock earnings oe n d).isOk = true ∧
    badSheetPy.total_current_assets =
      .error "TypeError: unsupported operand type(s) for +" :=
  ⟨rfl, rfl⟩

/-- C10: with all 15 fields non-negative the liquidity ratios form a
monotone chain, `cash_ratio ≤ quick_ratio ≤ current_ratio`, the
zero-liability case (all three `+inf`) included. -/
theorem c10_liquidity_chain (bs : BalanceSheet) (h : bs.Nonneg) :
    Val.leb (cash_ratio bs) (quick_ratio bs) = true ∧
    Val.leb (quick_ratio bs) (current_ratio bs) = true := by
  obtain ⟨hc, har, hinv, hoca, -, -, -, hap, hstd, hocl, -, -, -, -, -⟩ := h
  unfold cash_ratio quick_ratio current_ratio
  by_cases hcl : bs.total_current_liabilities = 0
  · simp [hcl, Val.leb]
  · have hpos : 0 < bs.total_current_liabilities := by
      have hge : 0 ≤ bs.total_current_liabilities := by
        unfold BalanceSheet.total_current_liabilities
        linarith
      exact lt_of_le_of_ne hge (Ne.symm hcl)
    simp only [if_neg hcl, Val.leb, decide_eq_true_eq]
    constructor
    · apply div_le_div_of_nonneg_right ?_ hpos.le
      unfold BalanceSheet.total_current_assets
      linarith
    · apply div_le_div_of_nonneg_right ?_ hpos.le
      linarith

/-- Witness for C10 at the spec §8 example sheet. -/
theorem c10_witness :
    Val.leb (cash_ratio exampleSheet) (quick_ratio exampleSheet) = true ∧
    Val.leb (quick_ratio exampleSheet) (current_ratio exampleSheet) = true :=
  c10_liquidity_chain exampleSheet (by norm_num [exampleSheet, BalanceSheet.Nonneg])

end BSA
